import Mathlib

/-!
Shallow embedding of the core lookup-and-merge pipeline of `src/main.py`
(the combined Streamlit script of the chemical_finder repository).

Modelling conventions, used uniformly below:

* Network interaction is represented by explicit outcome parameters: every
  embedded adapter takes a description of what the upstream service answered
  (or that the request failed) and returns the pair
  `(requests issued, result)` — the first component lists the URLs the
  Python code would contact, so "no network call is attempted" is
  `requests = []`.
* A JSON object field that the code reads with `dict.get` is modelled as an
  `Option`; where the code distinguishes an absent key from an explicit
  JSON `null` (both arise in practice and `dict.get` treats them
  differently), the field is `Option (Option _)`: `none` = key absent,
  `some none` = key present with value `null`.
* Python exceptions that the source code lets escape are modelled with
  `Except Unit`: `.error ()` is an uncaught exception propagating to the
  caller.  Code paths on which every exception is caught are total.
* Python `int` is `Int`, Python string operations are re-implemented
  character-exactly for the ASCII inputs the claims exercise
  (`pyStrip` for `str.strip`, `quote` for `urllib.parse.quote` over the
  UTF-8 bytes with the default safe set, `stripTags` for
  `re.sub('<[^<]+?>', '', _)`, and `unescape` modelled from the spec for
  Python's `html.unescape`, restricted to the named/numeric character
  references exercised here).
-/

/-- Decidable equality for `Except`, used to evaluate embedded functions
on concrete inputs. -/
instance {ε α : Type} [DecidableEq ε] [DecidableEq α] : DecidableEq (Except ε α)
  | .error x, .error y =>
    if h : x = y then isTrue (by rw [h]) else isFalse fun hc => h (by cases hc; rfl)
  | .error _, .ok _ => isFalse fun hc => by cases hc
  | .ok _, .error _ => isFalse fun hc => by cases hc
  | .ok x, .ok y =>
    if h : x = y then isTrue (by rw [h]) else isFalse fun hc => h (by cases hc; rfl)

/-- Python `str.strip()` whitespace predicate (ASCII part). -/
def isPySpace (c : Char) : Bool :=
  c = ' ' || c = '\t' || c = '\n' || c = '\r' || c = '\x0b' || c = '\x0c'

/-- Python `str.strip()` on ASCII whitespace: drop leading and trailing
whitespace characters. -/
def pyStrip (s : String) : String :=
  ⟨((s.data.dropWhile isPySpace).reverse.dropWhile isPySpace).reverse⟩

/-- Python slice `s[:4]` on a string. -/
def pyTake4 (s : String) : String := ⟨s.data.take 4⟩

/-- UTF-8 encoding of one character, as the list of its byte values
(the bytes Python's `str.encode('utf-8')` produces). -/
def utf8Bytes (c : Char) : List Nat :=
  let n := c.toNat
  if n < 128 then [n]
  else if n < 2048 then [192 + n / 64, 128 + n % 64]
  else if n < 65536 then [224 + n / 4096, 128 + (n / 64) % 64, 128 + n % 64]
  else [240 + n / 262144, 128 + (n / 4096) % 64, 128 + (n / 64) % 64, 128 + n % 64]

/-- Upper-case hexadecimal digit, as used by `urllib.parse.quote`. -/
def hexUpper (n : Nat) : Char :=
  if n < 10 then Char.ofNat (48 + n) else Char.ofNat (55 + n)

/-- Bytes `urllib.parse.quote` leaves unescaped with its default
`safe='/'`: ASCII letters, digits, `_ . - ~` and `/`. -/
def isUrlSafe (n : Nat) : Bool :=
  (65 ≤ n && n ≤ 90) || (97 ≤ n && n ≤ 122) || (48 ≤ n && n ≤ 57) ||
  n = 95 || n = 46 || n = 45 || n = 126 || n = 47

/-- Percent-encoding of a single byte per `urllib.parse.quote`. -/
def quoteByte (n : Nat) : List Char :=
  if isUrlSafe n then [Char.ofNat n] else ['%', hexUpper (n / 16), hexUpper (n % 16)]

/-- `urllib.parse.quote(s)` with the default safe set: percent-encode every
UTF-8 byte outside the safe set. -/
def quote (s : String) : String :=
  ⟨(s.data.flatMap utf8Bytes).flatMap quoteByte⟩

/-- Scan for the first `>` before any `<`; on success return the remainder
after the `>`.  This is the tail of a match of the regex `<[^<]+?>`. -/
def scanGt : List Char → Option (List Char)
  | [] => none
  | c :: rest => if c = '>' then some rest else if c = '<' then none else scanGt rest

/-- Attempt to match `[^<]+?>` (the body of the tag regex) at the head of
the list: at least one non-`<` character, then the first following `>`.
Returns the remainder after the match. -/
def tagBody : List Char → Option (List Char)
  | [] => none
  | c :: rest => if c = '<' then none else scanGt rest

/-- One pass of `re.sub('<[^<]+?>', '', s)`: wherever `<` starts a match of
the non-greedy tag pattern, the match is deleted; otherwise characters are
kept.  The `fuel` argument only bounds recursion; `fuel = length` always
suffices because every step consumes at least one character. -/
def stripTagsAux : Nat → List Char → List Char
  | 0, l => l
  | _, [] => []
  | fuel + 1, c :: rest =>
    if c = '<' then
      match tagBody rest with
      | some rest2 => stripTagsAux fuel rest2
      | none => c :: stripTagsAux fuel rest
    else c :: stripTagsAux fuel rest

/-- Python `re.sub('<[^<]+?>', '', s)` as used by `clean_abstract`. -/
def stripTags (s : String) : String :=
  ⟨stripTagsAux s.data.length s.data⟩

/-- Modelled from the spec: Python's `html.unescape` (standard library,
not part of this repository), restricted to the character references
exercised in this development (`amp`, `lt`, `gt`, `quot`, and numeric 39).
On strings whose ampersands occur only in these forms it agrees with the
library function. -/
def unescapeAux : List Char → List Char
  | [] => []
  | '&' :: 'a' :: 'm' :: 'p' :: ';' :: r => '&' :: unescapeAux r
  | '&' :: 'l' :: 't' :: ';' :: r => '<' :: unescapeAux r
  | '&' :: 'g' :: 't' :: ';' :: r => '>' :: unescapeAux r
  | '&' :: 'q' :: 'u' :: 'o' :: 't' :: ';' :: r => '"' :: unescapeAux r
  | '&' :: '#' :: '3' :: '9' :: ';' :: r => Char.ofNat 39 :: unescapeAux r
  | c :: r => c :: unescapeAux r

/-- String version of `unescapeAux`. -/
def unescape (s : String) : String := ⟨unescapeAux s.data⟩

/-- `clean_abstract` from `src/main.py` (lines 239-243): a falsy abstract
(missing or empty) becomes the sentinel; otherwise HTML tags are removed
with `re.sub('<[^<]+?>', '', _)`, entities are unescaped, and the result is
stripped. -/
def clean_abstract (raw : Option String) : String :=
  match raw with
  | none => "No abstract available."
  | some s =>
    if s = "" then "No abstract available."
    else pyStrip (unescape (stripTags s))

/-! ## Chemical lookup (`chemical_lookup.py` part of `src/main.py`) -/

/-- The 4-tuple `(cid, image_url, source, matched_name)` every chemical
fetcher returns; `none` is Python `None`. -/
structure ChemTuple where
  cid : Option Int
  image_url : Option String
  source : Option String
  matched_name : Option String
deriving DecidableEq, Repr

/-- The all-`None` tuple `return None, None, None, None`. -/
def chemNone : ChemTuple := ⟨none, none, none, none⟩

/-- Python truthiness of an optional string (`None` and `""` are falsy). -/
def pyTruthyStr : Option String → Bool
  | none => false
  | some s => decide (s ≠ "")

/-- Python truthiness of an optional integer (`None` and `0` are falsy). -/
def pyTruthyInt : Option Int → Bool
  | none => false
  | some n => decide (n ≠ 0)

/-- The `if cid or image_url` test applied to a fetcher's tuple. -/
def chemHit (t : ChemTuple) : Bool :=
  pyTruthyInt t.cid || pyTruthyStr t.image_url

/-- Cactus structure-image URL built from a (quoted) name, as in both
`fetch_pubchem_image` and `fetch_cactus_image`. -/
def cactusImageUrl (name : String) : String :=
  "https://cactus.nci.nih.gov/chemical/structure/" ++ quote name ++ "/image"

/-- PubChem REST base URL. -/
def pubchemBase : String := "https://pubchem.ncbi.nlm.nih.gov/rest/pug"

/-- Outcome of the PubChem CID request (`cid_resp`), combining the direct
attempt and, on an SSL error, the `verify=False` retry:
`exn` = no usable response was obtained (SSL retry failed, HTTP error, or
any other exception — all caught, yielding the all-`None` tuple);
`badBody` = a 200 response whose body makes
`cid_resp.json().get("IdentifierList", {}).get("CID", [])` raise (invalid
JSON, or an `IdentifierList` that is not an object) — this expression sits
outside every `try` block, so the exception escapes;
`ok cids` = a well-shaped body giving the (possibly empty) CID list. -/
inductive CidOutcome where
  | exn
  | badBody
  | ok (cids : List Int)
deriving DecidableEq, Repr

/-- Outcome of the IUPAC-name request: the whole block is inside
`try ... except Exception`, so `exn` covers request, status and parse
failures alike; `ok props` is the `Properties` list, each entry carrying
its optional `IUPACName`. -/
inductive NameOutcome where
  | exn
  | ok (props : List (Option String))
deriving DecidableEq, Repr

/-- `fetch_pubchem_image` from `src/main.py` (lines 123-160).  Returns the
list of PubChem URLs requested and either the result tuple or an escaping
exception.  Note there is no blank-input check: the CID request is issued
for every query, and the query text is embedded unencoded. -/
def fetch_pubchem_image (cidResp : CidOutcome) (nameResp : NameOutcome) (q : String) :
    List String × Except Unit ChemTuple :=
  let url1 := pubchemBase ++ "/compound/name/" ++ q ++ "/cids/JSON"
  match cidResp with
  | .exn => ([url1], .ok chemNone)
  | .badBody => ([url1], .error ())
  | .ok cids =>
    match cids with
    | [] => ([url1], .ok chemNone)
    | cid :: _ =>
      let url2 := pubchemBase ++ "/compound/cid/" ++ toString cid ++ "/property/IUPACName/JSON"
      let matchedName :=
        match nameResp with
        | .exn => q
        | .ok [] => q
        | .ok (p :: _) => p.getD q
      ([url1, url2],
        .ok ⟨some cid, some (cactusImageUrl matchedName), some "PubChem (Cactus)", some matchedName⟩)

/-- `fetch_cactus_image` from `src/main.py` (lines 162-174): a HEAD probe
of the deterministic image URL; `headStatus` is its status code (`none` =
the request raised, which is caught).  Success criterion is status 200; no
blank-input check, the probe is always issued. -/
def fetch_cactus_image (headStatus : Option Int) (q : String) :
    List String × ChemTuple :=
  let image_url := cactusImageUrl q
  ([image_url],
    match headStatus with
    | some 200 => ⟨none, some image_url, some "Cactus", some q⟩
    | _ => chemNone)

/-- A Wikidata `wbsearchentities` result entry: its optional `label`
(`none` = key absent, `some none` = explicit `null`) and optional `id`. -/
structure WdEntity where
  label : Option (Option String)
  id : Option String
deriving DecidableEq, Repr

/-- Outcome of the Wikidata search request; the whole body, including the
JSON parse, is inside `try ... except Exception`, so `exn` covers every
failure. -/
inductive WdOutcome where
  | exn
  | ok (results : List WdEntity)
deriving DecidableEq, Repr

/-- Python `str(x)` for an optional string: `None` renders as `"None"`
inside an f-string. -/
def pyStrOfOpt : Option String → String
  | none => "None"
  | some s => s

/-- The Wikidata search endpoint contacted by `fetch_wikidata`. -/
def wikidataSearchUrl : String := "https://www.wikidata.org/w/api.php"

/-- `fetch_wikidata` from `src/main.py` (lines 176-200): on a nonempty
search result, the first entity's label (falling back to the input when
the key is absent) and its entity page URL are returned with source
`"Wikidata"` and no CID. -/
def fetch_wikidata (resp : WdOutcome) (q : String) : List String × ChemTuple :=
  ([wikidataSearchUrl],
    match resp with
    | .exn => chemNone
    | .ok [] => chemNone
    | .ok (e :: _) =>
      let matchedName : Option String :=
        match e.label with
        | none => some q
        | some v => v
      ⟨none, some ("https://www.wikidata.org/wiki/" ++ pyStrOfOpt e.id), some "Wikidata", matchedName⟩)

/-- `fetch_chemical_info` from `src/main.py` (lines 202-215): PubChem
first (its uncaught exception propagates), then Cactus, then Wikidata,
each later source consulted only if the earlier ones produced no truthy
`cid`/`image_url`. -/
def fetch_chemical_info (cidResp : CidOutcome) (nameResp : NameOutcome)
    (headStatus : Option Int) (wd : WdOutcome) (q : String) : Except Unit ChemTuple :=
  match (fetch_pubchem_image cidResp nameResp q).2 with
  | .error e => .error e
  | .ok t =>
    if chemHit t then .ok t
    else
      let t2 := (fetch_cactus_image headStatus q).2
      if pyTruthyStr t2.image_url then .ok t2
      else
        let t3 := (fetch_wikidata wd q).2
        if pyTruthyStr t3.image_url then .ok t3
        else .ok chemNone

/-! ## Paper search (`paper_search.py` part of `src/main.py`) -/

/-- Publication year as stored in a paper dict: the three adapters put a
Python `int` (CrossRef, Semantic Scholar), a string (arXiv's date slice,
Semantic Scholar's `"N/A"` default), or `None` (CrossRef missing parts,
Semantic Scholar explicit `null`) into the same field. -/
inductive PaperYear where
  | int (n : Int)
  | str (s : String)
  | null
deriving DecidableEq, Repr

/-- The normalized paper dict all three adapters build.  `abstract` is
`Option` because Semantic Scholar can store Python `None` there (an
explicit JSON `null` passes through `dict.get` untouched). -/
structure Paper where
  title : String
  authors : String
  year : PaperYear
  url : String
  abstract : Option String
  pdf_url : Option String
deriving DecidableEq, Repr

/-- Deduplication key modelled from the spec: the case-insensitive,
trimmed title (the source code of `search_papers` has no counterpart of
this; it exists here to state the deduplication claim against the code). -/
def specNormalizedTitle (t : String) : String := ⟨(pyStrip t).data.map Char.toLower⟩

/-- A Semantic Scholar author entry (`a.get("name", "N/A")`). -/
structure SsAuthor where
  name : Option String
deriving DecidableEq, Repr

/-- A Semantic Scholar paper entry as read by `parse_semantic_response`.
`year` and `abstract` distinguish absent keys from explicit `null`
(`none` vs `some none`); `openAccessPdf` is `none` when the key is
absent, `null`, or a falsy empty object (all make the guarding
`if paper.get("openAccessPdf")` false), and `some u` when it is a truthy
object whose optional `url` entry is `u`. -/
structure SsPaper where
  title : Option String
  authors : Option (List SsAuthor)
  year : Option (Option Int)
  url : Option String
  abstract : Option (Option String)
  openAccessPdf : Option (Option String)
deriving DecidableEq, Repr

/-- `paper.get("year", "N/A")`: absent key gives the string `"N/A"`,
an explicit `null` gives Python `None`, an integer passes through. -/
def ssYear : Option (Option Int) → PaperYear
  | none => .str "N/A"
  | some none => .null
  | some (some n) => .int n

/-- `paper.get("abstract", "No abstract available.")`: the sentinel only
replaces an absent key; an explicit `null` passes through as `None`. -/
def ssAbstract : Option (Option String) → Option String
  | none => some "No abstract available."
  | some none => none
  | some (some s) => some s

/-- `parse_semantic_response` from `src/main.py` (lines 245-259). -/
def parse_semantic_response (papers : List SsPaper) : List Paper :=
  papers.map fun p =>
    { title := p.title.getD ""
      authors := String.intercalate ", " ((p.authors.getD []).map fun a => a.name.getD "N/A")
      year := ssYear p.year
      url := p.url.getD ""
      abstract := ssAbstract p.abstract
      pdf_url := p.openAccessPdf.getD none }

/-- `MAX_RETRIES` from `src/main.py` (line 228). -/
def MAX_RETRIES : Nat := 3

/-- Outcome of one attempt of the Semantic Scholar retry loop: `exn` =
`safe_get` or the parse raised (caught, loop continues); `notOk` = a
response with status other than 200 (no return, loop continues);
`ok papers` = a 200 response that parsed to the given entries. -/
inductive SsAttempt where
  | exn
  | notOk
  | ok (papers : List SsPaper)
deriving Repr

/-- The Semantic Scholar search URL. -/
def ssUrl (q : String) (limit : Nat) : String :=
  "https://api.semanticscholar.org/graph/v1/paper/search?query=" ++ quote q ++
    "&limit=" ++ toString limit ++
    "&fields=title,authors,year,url,abstract,externalIds,openAccessPdf"

/-- The retry loop of `search_semantic_scholar`: return the first `ok`
payload, together with the number of requests issued (one per executed
iteration). -/
def ssLoop : List SsAttempt → Option (List SsPaper) × Nat
  | [] => (none, 0)
  | .ok ps :: _ => (some ps, 1)
  | .exn :: rest => let r := ssLoop rest; (r.1, r.2 + 1)
  | .notOk :: rest => let r := ssLoop rest; (r.1, r.2 + 1)

/-- `search_semantic_scholar` from `src/main.py` (lines 261-277): blank
queries return `[]` before any request; otherwise up to `MAX_RETRIES`
attempts are made (`attempts` lists their outcomes) and the first
successful response is parsed and truncated to `limit`.  Every exception,
including parse errors, is caught inside the loop. -/
def search_semantic_scholar (attempts : List SsAttempt) (q : String) (limit : Nat) :
    List String × List Paper :=
  if pyStrip q = "" then ([], [])
  else
    let r := ssLoop (attempts.take MAX_RETRIES)
    (List.replicate r.2 (ssUrl q limit),
      match r.1 with
      | some ps => (parse_semantic_response ps).take limit
      | none => [])

/-- A CrossRef author object (`given`/`family`, each possibly absent). -/
structure CrAuthor where
  given : Option String
  family : Option String
deriving DecidableEq, Repr

/-- A CrossRef link object (`URL` and `content-type`, each possibly
absent; `content-type` is spelled `contentType` since Lean names cannot
contain a hyphen). -/
structure CrLink where
  url : Option String
  contentType : Option String
deriving DecidableEq, Repr

/-- A CrossRef work item as read by `search_crossref`: `title` is the
optional list-of-strings value of the `title` key, `issued` the optional
`date-parts` list of the `issued` object, others as in the code. -/
structure CrItem where
  title : Option (List String)
  author : Option (List CrAuthor)
  link : Option (List CrLink)
  issued : Option (List (List (Option Int)))
  url : Option String
  abstract : Option String
deriving DecidableEq, Repr

/-- One CrossRef author display string:
`f"{a.get('given', '')} {a.get('family', '')}".strip()`. -/
def crAuthorStr (a : CrAuthor) : String :=
  pyStrip ((a.given.getD "") ++ " " ++ (a.family.getD ""))

/-- `item.get("title", [""])[0]`: an absent key defaults to `[""]` whose
head is `""`; a present but empty list makes `[0]` raise `IndexError`,
which nothing in `search_crossref` catches. -/
def crTitle : Option (List String) → Except Unit String
  | none => .ok ""
  | some [] => .error ()
  | some (t :: _) => .ok t

/-- `item.get("issued", {}).get("date-parts", [[None]])[0][0]`: absent
keys give `None`; an empty outer or inner list raises `IndexError`
(uncaught); otherwise the first entry of the first part. -/
def crYear : Option (List (List (Option Int))) → Except Unit PaperYear
  | none => .ok .null
  | some [] => .error ()
  | some ([] :: _) => .error ()
  | some ((none :: _) :: _) => .ok .null
  | some ((some y :: _) :: _) => .ok (.int y)

/-- The paper dict `search_crossref` builds from one item (the loop body
of lines 294-305, which runs outside any `try`, so the `IndexError`s of
`crTitle`/`crYear` escape). -/
def crItemToPaper (it : CrItem) : Except Unit Paper := do
  let authors := (it.author.getD []).map crAuthorStr
  let authorsStr := if authors.isEmpty then "N/A" else String.intercalate ", " authors
  let pdf :=
    match (it.link.getD []).find? (fun l => decide (l.contentType = some "application/pdf")) with
    | none => none
    | some l => l.url
  let title ← crTitle it.title
  let year ← crYear it.issued
  .ok { title := title, authors := authorsStr, year := year, url := it.url.getD "",
        abstract := some (clean_abstract it.abstract), pdf_url := pdf }

/-- Map `crItemToPaper` over all items, propagating the first exception
(the Python loop aborts on the first raising item). -/
def crMapItems : List CrItem → Except Unit (List Paper)
  | [] => .ok []
  | it :: rest => do
    let p ← crItemToPaper it
    let ps ← crMapItems rest
    .ok (p :: ps)

/-- Outcome of the CrossRef request: `exn` = `safe_get` or
`raise_for_status` raised (caught, returns `[]`); `badJson` = a 2xx
response whose body makes `response.json()` on line 292 raise — that call
is outside the `try` block, so the exception escapes; `ok items` = the
parsed `message.items` list (absent keys default to `[]`). -/
inductive CrResp where
  | exn
  | badJson
  | ok (items : List CrItem)
deriving Repr

/-- The CrossRef works URL. -/
def crUrl (q : String) (limit : Nat) : String :=
  "https://api.crossref.org/works?query=" ++ quote q ++ "&rows=" ++ toString limit

/-- `search_crossref` from `src/main.py` (lines 279-306): blank queries
return `[]` with no request; request/status errors are caught; a malformed
200 body raises out of the function; otherwise all items are converted
(exceptions from individual items escaping) and truncated to `limit`. -/
def search_crossref (resp : CrResp) (q : String) (limit : Nat) :
    List String × Except Unit (List Paper) :=
  if pyStrip q = "" then ([], .ok [])
  else
    ([crUrl q limit],
      match resp with
      | .exn => .ok []
      | .badJson => .error ()
      | .ok items => (crMapItems items).map fun l => l.take limit)

/-- An arXiv Atom entry as read by `search_arxiv`: each field is the text
of the corresponding element, `none` when the element is missing or has
no text (both make the extraction raise, aborting the whole parse);
`authors` lists the texts of the `author/name` elements. -/
structure ArxivEntry where
  title : Option String
  summary : Option String
  id : Option String
  published : Option String
  authors : List (Option String)
deriving DecidableEq, Repr

/-- The synthesized arXiv PDF link: the entry id after the last `/abs/`,
wrapped in the deterministic PDF URL pattern. -/
def arxivPdfUrl (url : String) : String :=
  let arxivId := (url.splitOn "/abs/").getLastD url
  "http://arxiv.org/pdf/" ++ arxivId ++ ".pdf"

/-- Collect a list of optional strings, failing on the first `None`
(`", ".join` raises `TypeError` on a `None` element). -/
def seqOptions : List (Option String) → Option (List String)
  | [] => some []
  | none :: _ => none
  | some s :: rest => (seqOptions rest).map (s :: ·)

/-- The paper dict `search_arxiv` builds from one entry; `none` = some
required field was missing and an exception aborted the loop. -/
def arxivEntryToPaper (e : ArxivEntry) : Option Paper :=
  match e.title, e.summary, e.id, e.published with
  | some t, some s, some u, some d =>
    match seqOptions e.authors with
    | none => none
    | some names =>
      let astr := String.intercalate ", " names
      some { title := pyStrip t,
             authors := if astr = "" then "N/A" else astr,
             year := .str (pyTake4 d),
             url := u,
             abstract := some (pyStrip s),
             pdf_url := some (arxivPdfUrl u) }
  | _, _, _, _ => none

/-- Convert all entries; any failing entry aborts the whole list (the
exception is caught by the surrounding `try`, which returns `[]`). -/
def arxivParseEntries : List ArxivEntry → Option (List Paper)
  | [] => some []
  | e :: rest =>
    match arxivEntryToPaper e with
    | none => none
    | some p => (arxivParseEntries rest).map (p :: ·)

/-- Outcome of the arXiv request: `exn` = request/status error (caught);
`badXml` = `ET.fromstring` raised (caught); `ok entries` = the parsed
feed entries. -/
inductive ArxivResp where
  | exn
  | badXml
  | ok (entries : List ArxivEntry)
deriving Repr

/-- The arXiv query URL. -/
def arxivUrl (q : String) (limit : Nat) : String :=
  "http://export.arxiv.org/api/query?search_query=all:" ++ quote q ++
    "&start=0&max_results=" ++ toString limit

/-- `search_arxiv` from `src/main.py` (lines 308-345): blank queries
return `[]` with no request; every request and parse failure is caught
and yields `[]`; otherwise the entries are converted and truncated. -/
def search_arxiv (resp : ArxivResp) (q : String) (limit : Nat) :
    List String × List Paper :=
  if pyStrip q = "" then ([], [])
  else
    ([arxivUrl q limit],
      match resp with
      | .exn => []
      | .badXml => []
      | .ok entries =>
        match arxivParseEntries entries with
        | none => []
        | some ps => ps.take limit)

/-- The source loop of `search_papers` (lines 347-359), abstracted over
the adapter functions it iterates: each source is asked for
`limit - len(all_papers)` records; empty results are skipped; once the
collected list reaches `limit` it is truncated and returned early with
`"Multiple Sources"`; an adapter's uncaught exception propagates. -/
def searchLoop (q : String) (limit : Nat)
    (funcs : List (String → Nat → Except Unit (List Paper)))
    (allPapers : List Paper) : Except Unit (List Paper × String) :=
  match funcs with
  | [] => .ok (allPapers, if allPapers.isEmpty then "None" else "Multiple Sources")
  | f :: rest =>
    match f q (limit - allPapers.length) with
    | .error e => .error e
    | .ok papers =>
      if papers.isEmpty then searchLoop q limit rest allPapers
      else
        let all2 := allPapers ++ papers
        if limit ≤ all2.length then .ok (all2.take limit, "Multiple Sources")
        else searchLoop q limit rest all2

/-- Constant adapter behaviours: each list is returned whatever the query
and requested limit. -/
def constFuncs (ls : List (List Paper)) : List (String → Nat → Except Unit (List Paper)) :=
  ls.map fun l => fun _ _ => .ok l

/-- `search_papers` from `src/main.py` (lines 347-359): the loop over
Semantic Scholar, CrossRef and arXiv in that fixed order, instantiated
with the embedded adapters under the given upstream outcomes. -/
def search_papers (ssA : List SsAttempt) (crR : CrResp) (axR : ArxivResp)
    (q : String) (limit : Nat) : Except Unit (List Paper × String) :=
  searchLoop q limit
    [fun qq ll => .ok (search_semantic_scholar ssA qq ll).2,
     fun qq ll => (search_crossref crR qq ll).2,
     fun qq ll => .ok (search_arxiv axR qq ll).2] []

/-! ## Concrete records used to evaluate the embedding -/

/-- A minimal concrete paper record with the given title and year. -/
def mkPaper (t : String) (y : PaperYear) : Paper :=
  { title := t, authors := "N/A", year := y, url := "",
    abstract := some "No abstract available.", pdf_url := none }

/-- A Semantic Scholar entry titled `"Synthesis of X"`. -/
def ssPaperSynth : SsPaper :=
  { title := some "Synthesis of X", authors := some [], year := some (some 2020),
    url := some "", abstract := none, openAccessPdf := none }

/-- A CrossRef item titled `"  synthesis of x  "` (same title as
`ssPaperSynth` up to trimming and case). -/
def crItemSynth : CrItem :=
  { title := some ["  synthesis of x  "], author := none, link := none,
    issued := none, url := none, abstract := none }

/-- The paper record `parse_semantic_response` produces from
`ssPaperSynth`. -/
def paperSynthA : Paper :=
  { title := "Synthesis of X", authors := "", year := .int 2020, url := "",
    abstract := some "No abstract available.", pdf_url := none }

/-- The paper record `search_crossref` produces from `crItemSynth`. -/
def paperSynthB : Paper :=
  { title := "  synthesis of x  ", authors := "N/A", year := .null, url := "",
    abstract := some "No abstract available.", pdf_url := none }

/-- Four Semantic Scholar entries whose years decode to
2020, `None`, 2023, 1999 in that order. -/
def c2Input : List SsPaper :=
  [{ title := some "A", authors := some [], year := some (some 2020),
     url := some "", abstract := none, openAccessPdf := none },
   { title := some "B", authors := some [], year := some none,
     url := some "", abstract := none, openAccessPdf := none },
   { title := some "C", authors := some [], year := some (some 2023),
     url := some "", abstract := none, openAccessPdf := none },
   { title := some "D", authors := some [], year := some (some 1999),
     url := some "", abstract := none, openAccessPdf := none }]

/-- Five first-source candidates with years 2000-2004. -/
def c7ssList : List Paper :=
  [mkPaper "S one" (.int 2000), mkPaper "S two" (.int 2001),
   mkPaper "S three" (.int 2002), mkPaper "S four" (.int 2003),
   mkPaper "S five" (.int 2004)]

/-- Five second-source candidates with years 2010-2014, all higher than
every year in `c7ssList`. -/
def c7crList : List Paper :=
  [mkPaper "C one" (.int 2010), mkPaper "C two" (.int 2011),
   mkPaper "C three" (.int 2012), mkPaper "C four" (.int 2013),
   mkPaper "C five" (.int 2014)]

/-- A Semantic Scholar entry whose `abstract` key holds an explicit JSON
`null`. -/
def ssNullAbstract : SsPaper :=
  { title := some "Null abstract", authors := some [], year := some (some 2021),
    url := some "", abstract := some none, openAccessPdf := none }

/-- A Semantic Scholar entry whose abstract contains HTML markup. -/
def ssHtmlAbstract : SsPaper :=
  { title := some "Html abstract", authors := some [], year := some (some 2021),
    url := some "", abstract := some (some "<b>Bold</b> text"), openAccessPdf := none }

/-- A CrossRef item with an HTML abstract, used to evaluate
`crItemToPaper`. -/
def crItemAbs : CrItem :=
  { title := some ["T"], author := none, link := none,
    issued := none, url := none, abstract := some "<jats:p>A</jats:p>" }

/-- The record `crItemToPaper` produces from `crItemAbs`. -/
def c9Paper : Paper :=
  { title := "T", authors := "N/A", year := .null, url := "",
    abstract := some "A", pdf_url := none }

/-- A Wikidata entity for the aspirin query. -/
def wdAspirin : WdEntity := { label := some (some "Aspirin"), id := some "Q18216" }

/-! ## Helper lemmas about the aggregation loop -/

theorem list_isEmpty_false {α : Type} {l : List α} (h : l ≠ []) : l.isEmpty = false := by
  cases l with
  | nil => exact absurd rfl h
  | cons a as => rfl

theorem searchLoop_length_le (q : String) (limit : Nat) :
    ∀ (funcs : List (String → Nat → Except Unit (List Paper))) (acc res : List Paper)
      (src : String), acc.length ≤ limit →
      searchLoop q limit funcs acc = .ok (res, src) → res.length ≤ limit := by
  intro funcs
  induction funcs with
  | nil =>
    intro acc res src hacc h
    simp only [searchLoop] at h
    cases h
    exact hacc
  | cons f rest ih =>
    intro acc res src hacc h
    simp only [searchLoop] at h
    split at h
    · exact Except.noConfusion h
    · split at h
      · exact ih acc res src hacc h
      · split at h
        · cases h
          rw [List.length_take]
          exact Nat.min_le_left _ _
        · rename_i papers hne hlt
          exact ih _ res src (Nat.le_of_lt (Nat.lt_of_not_le hlt)) h

theorem searchLoop_const_eq (q : String) (limit : Nat) :
    ∀ (ls : List (List Paper)) (acc : List Paper),
      acc.length + ls.flatten.length ≤ limit →
      searchLoop q limit (constFuncs ls) acc =
        .ok (acc ++ ls.flatten,
          if (acc ++ ls.flatten).isEmpty then "None" else "Multiple Sources") := by
  intro ls
  induction ls with
  | nil =>
    intro acc h
    simp [searchLoop, constFuncs]
  | cons l ls ih =>
    intro acc h
    simp only [constFuncs, List.map_cons, searchLoop, List.flatten_cons] at *
    by_cases hl : l = []
    · subst hl
      simp only [List.isEmpty_nil, if_true, List.nil_append]
      have h' : acc.length + ls.flatten.length ≤ limit := by simpa using h
      simpa [constFuncs] using ih acc h'
    · rw [list_isEmpty_false hl]
      simp only [Bool.false_eq_true, if_false]
      rw [List.length_append] at *
      by_cases hle : limit ≤ acc.length + l.length
      · have heq : acc.length + l.length = limit := by
          have hub : acc.length + l.length ≤ limit := by
            calc acc.length + l.length
                ≤ acc.length + (l.length + ls.flatten.length) := by
                  simp [Nat.add_le_add_iff_left, Nat.le_add_right]
              _ ≤ limit := by simpa [List.length_append, Nat.add_assoc] using h
          exact Nat.le_antisymm hub hle
        have hfl : ls.flatten = [] := by
          have : ls.flatten.length = 0 := by omega
          exact List.eq_nil_of_length_eq_zero this
        rw [if_pos hle]
        simp only [hfl]
        have htake : List.take limit (acc ++ l) = acc ++ l := by
          rw [← heq, ← List.length_append]
          exact List.take_length _
        rw [htake]
        simp [hl]
      · rw [if_neg hle]
        have h' : (acc ++ l).length + ls.flatten.length ≤ limit := by
          rw [List.length_append]; omega
        have := ih (acc ++ l) h'
        rw [this]
        simp

theorem searchLoop_const_empty (q : String) (limit : Nat) (h1 : 1 ≤ limit) :
    ∀ (ls : List (List Paper)) (acc : List Paper) (src : String),
      searchLoop q limit (constFuncs ls) acc = .ok ([], src) →
      acc = [] ∧ ∀ l ∈ ls, l = [] := by
  intro ls
  induction ls with
  | nil =>
    intro acc src h
    simp only [searchLoop, constFuncs, List.map_nil] at h
    cases h
    exact ⟨rfl, by intro l hl; cases hl⟩
  | cons l ls ih =>
    intro acc src h
    simp only [constFuncs, List.map_cons, searchLoop] at h
    by_cases hl : l = []
    · subst hl
      simp only [List.isEmpty_nil, if_true] at h
      have hres := ih acc src (by simpa [constFuncs] using h)
      refine ⟨hres.1, ?_⟩
      intro x hx
      cases hx with
      | head => rfl
      | tail _ hx => exact hres.2 _ hx
    · rw [list_isEmpty_false hl] at h
      simp only [Bool.false_eq_true, if_false] at h
      exfalso
      split at h
      · rw [Except.ok.injEq, Prod.mk.injEq] at h
        rcases List.take_eq_nil_iff.mp h.1 with h0 | happ
        · omega
        · exact hl (List.append_eq_nil.mp happ).2
      · have := (ih (acc ++ l) src h).1
        exact hl (List.append_eq_nil.mp this).2

theorem searchLoop_first_fills (q : String) (limit : Nat) (l : List Paper)
    (rest : List (String → Nat → Except Unit (List Paper)))
    (hne : l ≠ []) (hle : limit ≤ l.length) :
    searchLoop q limit ((fun _ _ => .ok l) :: rest) [] =
      .ok (l.take limit, "Multiple Sources") := by
  simp only [searchLoop, list_isEmpty_false hne, Bool.false_eq_true, if_false,
    List.nil_append]
  rw [if_pos hle]

theorem wikiUrl_ne_empty (s : String) : "https://www.wikidata.org/wiki/" ++ s ≠ "" := by
  intro h
  have hlen := congrArg String.length h
  rw [String.length_append] at hlen
  have h30 : ("https://www.wikidata.org/wiki/" : String).length = 30 := by decide
  have h0 : ("" : String).length = 0 := rfl
  omega

/-! ## Claims -/

/-- C1 (counterexample).  The claim says `search_papers` keeps at most one
record per case-insensitive trimmed title.  With Semantic Scholar
returning a paper titled `"Synthesis of X"` and CrossRef one titled
`"  synthesis of x  "`, the output of `search_papers` contains both
records even though their normalized titles coincide: the code performs no
deduplication. -/
theorem c1_counterexample :
    search_papers [.ok [ssPaperSynth]] (.ok [crItemSynth]) (.ok []) "chem" 10 =
      .ok ([paperSynthA, paperSynthB], "Multiple Sources") ∧
    specNormalizedTitle paperSynthA.title = specNormalizedTitle paperSynthB.title ∧
    paperSynthA ≠ paperSynthB := by
  refine ⟨by decide, by decide, by decide⟩

/-- C1 (amended).  `search_papers` performs no deduplication at all:
whenever the three sources' results fit within `limit`, the output is
exactly their concatenation in source order — records with equal
normalized titles included —, labelled `"Multiple Sources"` when anything
was found and `"None"` otherwise. -/
theorem c1_no_dedup (q : String) (limit : Nat) (l1 l2 l3 : List Paper)
    (h : l1.length + l2.length + l3.length ≤ limit) :
    searchLoop q limit (constFuncs [l1, l2, l3]) [] =
      .ok (l1 ++ l2 ++ l3,
        if (l1 ++ l2 ++ l3).isEmpty then "None" else "Multiple Sources") := by
  have hlen : ([] : List Paper).length + ([l1, l2, l3].flatten).length ≤ limit := by
    simp [List.length_append]
    omega
  have := searchLoop_const_eq q limit [l1, l2, l3] [] hlen
  simpa [List.append_assoc] using this

/-- C1 (witness). -/
theorem c1_no_dedup_witness :
    searchLoop "x" 10 (constFuncs [[paperSynthA], [paperSynthB], []]) [] =
      .ok ([paperSynthA, paperSynthB], "Multiple Sources") := by
  have := c1_no_dedup "x" 10 [paperSynthA] [paperSynthB] [] (by decide)
  simpa using this

/-- C2 (counterexample).  The claim says records sort by year descending
with missing years last, so years [2020, None, 2023, 1999] should come
out as [2023, 2020, 1999, None]; the code does not sort at all and
returns them in input order [2020, None, 2023, 1999]. -/
theorem c2_counterexample :
    search_papers [.ok c2Input] (.ok []) (.ok []) "chem" 10 =
      .ok (parse_semantic_response c2Input, "Multiple Sources") ∧
    (parse_semantic_response c2Input).map Paper.year =
      [.int 2020, .null, .int 2023, .int 1999] ∧
    (parse_semantic_response c2Input).map Paper.year ≠
      [.int 2023, .int 2020, .int 1999, .null] := by
  refine ⟨by decide, by decide, by decide⟩

/-- C2 (amended).  `search_papers` performs no year sorting: when the
sources' results fit within `limit`, the output years are exactly the
input years in source order, missing years staying in place. -/
theorem c2_no_sort (q : String) (limit : Nat) (l1 l2 l3 : List Paper)
    (h : l1.length + l2.length + l3.length ≤ limit) :
    (searchLoop q limit (constFuncs [l1, l2, l3]) []).map
        (fun r => r.1.map Paper.year) =
      .ok ((l1 ++ l2 ++ l3).map Paper.year) := by
  have hlen : ([] : List Paper).length + ([l1, l2, l3].flatten).length ≤ limit := by
    simp [List.length_append]
    omega
  rw [searchLoop_const_eq q limit [l1, l2, l3] [] hlen]
  simp [Except.map, List.append_assoc]

/-- C2 (witness). -/
theorem c2_no_sort_witness :
    (searchLoop "x" 10
        (constFuncs [parse_semantic_response c2Input, [], []]) []).map
        (fun r => r.1.map Paper.year) =
      .ok [PaperYear.int 2020, .null, .int 2023, .int 1999] := by
  have := c2_no_sort "x" 10 (parse_semantic_response c2Input) [] [] (by decide)
  simpa using this

/-- C3 (counterexample).  The claim says that when neither
`fetch_pubchem_image` nor `fetch_cactus_image` returns a result the
resolver returns no match.  But with PubChem finding no CID and Cactus
answering 404, a successful Wikidata search still yields a match with
source `"Wikidata"`, not the all-`None` tuple. -/
theorem c3_counterexample :
    (fetch_pubchem_image (.ok []) .exn "aspirin").2 = .ok chemNone ∧
    (fetch_cactus_image (some 404) "aspirin").2 = chemNone ∧
    fetch_chemical_info (.ok []) .exn (some 404) (.ok [wdAspirin]) "aspirin" =
      .ok ⟨none, some "https://www.wikidata.org/wiki/Q18216", some "Wikidata",
           some "Aspirin"⟩ ∧
    (⟨none, some "https://www.wikidata.org/wiki/Q18216", some "Wikidata",
      some "Aspirin"⟩ : ChemTuple) ≠ chemNone := by
  refine ⟨by decide, by decide, by decide, by decide⟩

/-- C3 (amended).  The resolver's static priority has three tiers, not
two: PubChem's result wins if truthy, otherwise Cactus's, otherwise
Wikidata's, and only when all three produce nothing does the resolver
return the all-`None` tuple. -/
theorem c3_priority (cidResp : CidOutcome) (nameResp : NameOutcome)
    (headStatus : Option Int) (wd : WdOutcome) (q : String) (t : ChemTuple)
    (hp : (fetch_pubchem_image cidResp nameResp q).2 = .ok t) :
    (chemHit t = true →
      fetch_chemical_info cidResp nameResp headStatus wd q = .ok t) ∧
    (chemHit t = false →
      pyTruthyStr (fetch_cactus_image headStatus q).2.image_url = true →
      fetch_chemical_info cidResp nameResp headStatus wd q =
        .ok (fetch_cactus_image headStatus q).2) ∧
    (chemHit t = false →
      pyTruthyStr (fetch_cactus_image headStatus q).2.image_url = false →
      pyTruthyStr (fetch_wikidata wd q).2.image_url = true →
      fetch_chemical_info cidResp nameResp headStatus wd q =
        .ok (fetch_wikidata wd q).2) ∧
    (chemHit t = false →
      pyTruthyStr (fetch_cactus_image headStatus q).2.image_url = false →
      pyTruthyStr (fetch_wikidata wd q).2.image_url = false →
      fetch_chemical_info cidResp nameResp headStatus wd q = .ok chemNone) := by
  refine ⟨?_, ?_, ?_, ?_⟩
  · intro h1
    simp [fetch_chemical_info, hp, h1]
  · intro h1 h2
    simp [fetch_chemical_info, hp, h1, h2]
  · intro h1 h2 h3
    simp [fetch_chemical_info, hp, h1, h2, h3]
  · intro h1 h2 h3
    simp [fetch_chemical_info, hp, h1, h2, h3]

/-- C3 (witness). -/
theorem c3_priority_witness :
    ((chemHit chemNone = true →
        fetch_chemical_info (.ok []) .exn (some 404) (.ok [wdAspirin]) "aspirin" =
          .ok chemNone) ∧
      (chemHit chemNone = false →
        pyTruthyStr (fetch_cactus_image (some 404) "aspirin").2.image_url = true →
        fetch_chemical_info (.ok []) .exn (some 404) (.ok [wdAspirin]) "aspirin" =
          .ok (fetch_cactus_image (some 404) "aspirin").2) ∧
      (chemHit chemNone = false →
        pyTruthyStr (fetch_cactus_image (some 404) "aspirin").2.image_url = false →
        pyTruthyStr (fetch_wikidata (.ok [wdAspirin]) "aspirin").2.image_url = true →
        fetch_chemical_info (.ok []) .exn (some 404) (.ok [wdAspirin]) "aspirin" =
          .ok (fetch_wikidata (.ok [wdAspirin]) "aspirin").2) ∧
      (chemHit chemNone = false →
        pyTruthyStr (fetch_cactus_image (some 404) "aspirin").2.image_url = false →
        pyTruthyStr (fetch_wikidata (.ok [wdAspirin]) "aspirin").2.image_url = false →
        fetch_chemical_info (.ok []) .exn (some 404) (.ok [wdAspirin]) "aspirin" =
          .ok chemNone)) :=
  c3_priority (.ok []) .exn (some 404) (.ok [wdAspirin]) "aspirin" chemNone rfl

/-- C4 (code bug).  The claim — adapters never let an exception escape —
matches the code's evident intent, but `fetch_pubchem_image` parses the
200-status CID response on line 143 outside every `try` block, and
`search_crossref` calls `response.json()` on line 292 outside its `try`
block: a 200 response with a malformed body raises out of both adapters
(and through `fetch_chemical_info`). -/
theorem c4_uncaught_parse_error :
    (fetch_pubchem_image .badBody .exn "formaldehyde").2 = .error () ∧
    (search_crossref .badJson "formaldehyde" 5).2 = .error () ∧
    fetch_chemical_info .badBody .exn none .exn "formaldehyde" = .error () := by
  refine ⟨rfl, by decide, rfl⟩

/-- C5 (counterexample).  The claim says every adapter treats a blank
query as an immediate no-result with no network call, but the two
chemical-DB adapters have no blank-input check: for the whitespace query
`"   "` (and even the empty query) both issue their network request. -/
theorem c5_counterexample :
    pyStrip "   " = "" ∧
    (fetch_pubchem_image .exn .exn "   ").1 ≠ [] ∧
    (fetch_cactus_image (some 200) "   ").1 ≠ [] ∧
    (fetch_pubchem_image .exn .exn "").1 ≠ [] ∧
    (fetch_cactus_image (some 200) "").1 ≠ [] := by
  refine ⟨by decide, by decide, by decide, by decide, by decide⟩

/-- C5 (amended).  Only the three paper adapters short-circuit on a
blank/whitespace query (returning `[]` with no request issued); the two
chemical-DB adapters issue their network calls regardless. -/
theorem c5_blank_query (q : String) (hq : pyStrip q = "")
    (attempts : List SsAttempt) (limit : Nat) (crR : CrResp) (axR : ArxivResp)
    (cidResp : CidOutcome) (nameResp : NameOutcome) (headStatus : Option Int) :
    search_semantic_scholar attempts q limit = ([], []) ∧
    search_crossref crR q limit = ([], .ok []) ∧
    search_arxiv axR q limit = ([], []) ∧
    (fetch_pubchem_image cidResp nameResp q).1 ≠ [] ∧
    (fetch_cactus_image headStatus q).1 ≠ [] := by
  refine ⟨?_, ?_, ?_, ?_, ?_⟩
  · simp [search_semantic_scholar, hq]
  · simp [search_crossref, hq]
  · simp [search_arxiv, hq]
  · cases cidResp with
    | exn => simp [fetch_pubchem_image]
    | badBody => simp [fetch_pubchem_image]
    | ok cids => cases cids <;> simp [fetch_pubchem_image]
  · simp [fetch_cactus_image]

/-- C5 (witness). -/
theorem c5_blank_query_witness :
    search_semantic_scholar [] "  " 5 = ([], []) ∧
    search_crossref .exn "  " 5 = ([], .ok []) ∧
    search_arxiv .exn "  " 5 = ([], []) ∧
    (fetch_pubchem_image .exn .exn "  ").1 ≠ [] ∧
    (fetch_cactus_image none "  ").1 ≠ [] :=
  c5_blank_query "  " (by decide) [] 5 .exn .exn .exn .exn none

/-- C6 (confirmed).  If the first source returns records while the other
two return empty lists, `search_papers` returns those records (truncated
to `limit`) with no error; and an empty output arises only when all three
sources returned nothing, in which case the result is a normal
`([], "None")`, not an error. -/
theorem c6_partial_failure_tolerance :
    (∀ (q : String) (limit : Nat) (l : List Paper), l ≠ [] →
      searchLoop q limit (constFuncs [l, [], []]) [] =
        .ok (l.take limit, "Multiple Sources")) ∧
    (∀ (q : String) (limit : Nat) (l1 l2 l3 res : List Paper) (src : String),
      1 ≤ limit →
      searchLoop q limit (constFuncs [l1, l2, l3]) [] = .ok (res, src) →
      res = [] → l1 = [] ∧ l2 = [] ∧ l3 = []) ∧
    (∀ (q : String) (limit : Nat),
      searchLoop q limit (constFuncs [[], [], []]) [] = .ok ([], "None")) := by
  refine ⟨?_, ?_, ?_⟩
  · intro q limit l hl
    by_cases hle : limit ≤ l.length
    · exact searchLoop_first_fills q limit l _ hl hle
    · have hc := searchLoop_const_eq q limit [l, [], []] [] (by simp; omega)
      rw [hc]
      simp [list_isEmpty_false hl, List.take_of_length_le (Nat.le_of_not_le hle)]
  · intro q limit l1 l2 l3 res src h1 h hres
    subst hres
    have hall := searchLoop_const_empty q limit h1 [l1, l2, l3] [] src h
    exact ⟨hall.2 l1 (by simp), hall.2 l2 (by simp), hall.2 l3 (by simp)⟩
  · intro q limit
    have := searchLoop_const_eq q limit [[], [], []] [] (by simp)
    simpa using this

/-- C6 (witness). -/
theorem c6_partial_failure_witness :
    searchLoop "aspirin" 3 (constFuncs [c7ssList, [], []]) [] =
      .ok (c7ssList.take 3, "Multiple Sources") ∧
    searchLoop "aspirin" 3 (constFuncs [[], [], []]) [] = .ok ([], "None") :=
  ⟨c6_partial_failure_tolerance.1 "aspirin" 3 c7ssList (by decide),
   c6_partial_failure_tolerance.2.2 "aspirin" 3⟩

/-- C7 (counterexample).  With ten deduplicated candidates (five from the
first source with years 2000-2004, five from the second with years
2010-2014, every source honouring the limit it is asked for), a request
with `limit = 3` returns the first source's first three records — years
2000, 2001, 2002 — and not the three candidates with the highest years:
the 2014 candidate is excluded. -/
theorem c7_counterexample :
    searchLoop "q" 3
        [fun _ k => .ok (c7ssList.take k), fun _ k => .ok (c7crList.take k),
         fun _ _ => .ok []] [] =
      .ok (c7ssList.take 3, "Multiple Sources") ∧
    (c7ssList.take 3).map Paper.year = [.int 2000, .int 2001, .int 2002] ∧
    (c7ssList ++ c7crList).length = 10 ∧
    mkPaper "C five" (.int 2014) ∈ c7ssList ++ c7crList ∧
    mkPaper "C five" (.int 2014) ∉ c7ssList.take 3 := by
  refine ⟨by decide, by decide, by decide, by decide, by decide⟩

/-- C7 (amended).  The length bound of the claim holds — the output of
`search_papers` never exceeds `limit` records — but the records kept are
the first ones collected in fixed source order, not the ones with the
highest years. -/
theorem c7_length_le_limit :
    (∀ (funcs : List (String → Nat → Except Unit (List Paper))) (q : String)
      (limit : Nat) (res : List Paper) (src : String),
      searchLoop q limit funcs [] = .ok (res, src) → res.length ≤ limit) ∧
    (∀ (ssA : List SsAttempt) (crR : CrResp) (axR : ArxivResp) (q : String)
      (limit : Nat) (res : List Paper) (src : String),
      search_papers ssA crR axR q limit = .ok (res, src) → res.length ≤ limit) := by
  constructor
  · intro funcs q limit res src h
    exact searchLoop_length_le q limit funcs [] res src (Nat.zero_le _) h
  · intro ssA crR axR q limit res src h
    exact searchLoop_length_le q limit _ [] res src (Nat.zero_le _) h

/-- C7 (witness). -/
theorem c7_length_le_limit_witness :
    search_papers [.ok [ssPaperSynth]] (.ok []) (.ok []) "x" 7 =
      .ok ([paperSynthA], "Multiple Sources") ∧
    [paperSynthA].length ≤ 7 :=
  ⟨by decide,
   c7_length_le_limit.2 [.ok [ssPaperSynth]] (.ok []) (.ok []) "x" 7
     [paperSynthA] "Multiple Sources" (by decide)⟩

/-- C8 (counterexample).  The claim says the aggregator collects the
results of all three adapters into its merge.  With the first source
already filling `limit = 2`, the second source's record `"C"` is never
collected: the merge is exactly the first source's two records. -/
theorem c8_counterexample :
    searchLoop "q" 2
        (constFuncs [[mkPaper "A" (.int 2020), mkPaper "B" (.int 2021)],
          [mkPaper "C" (.int 2022)], []]) [] =
      .ok ([mkPaper "A" (.int 2020), mkPaper "B" (.int 2021)], "Multiple Sources") ∧
    mkPaper "C" (.int 2022) ∉ [mkPaper "A" (.int 2020), mkPaper "B" (.int 2021)] := by
  refine ⟨by decide, by decide⟩

/-- C8 (amended).  The aggregator queries the sources sequentially in
fixed order, asking each for the remaining quota, and stops as soon as
`limit` records are collected: when the first source alone fills the
quota, the result is its records truncated to `limit`, whatever the later
sources — here arbitrary, even raising — would have returned. -/
theorem c8_early_stop (q : String) (limit : Nat) (l : List Paper)
    (rest : List (String → Nat → Except Unit (List Paper)))
    (hne : l ≠ []) (hle : limit ≤ l.length) :
    searchLoop q limit ((fun _ _ => .ok l) :: rest) [] =
      .ok (l.take limit, "Multiple Sources") :=
  searchLoop_first_fills q limit l rest hne hle

/-- C8 (witness). -/
theorem c8_early_stop_witness :
    searchLoop "q" 2
        ((fun _ _ => .ok [mkPaper "A" (.int 2020), mkPaper "B" (.int 2021)]) ::
          [fun _ _ => .error ()]) [] =
      .ok ([mkPaper "A" (.int 2020), mkPaper "B" (.int 2021)].take 2,
        "Multiple Sources") :=
  c8_early_stop "q" 2 [mkPaper "A" (.int 2020), mkPaper "B" (.int 2021)]
    [fun _ _ => .error ()] (by decide) (by decide)

/-- C9 (counterexample).  The claim says every adapter-produced record has
a present, non-null, HTML-stripped abstract.  But `parse_semantic_response`
reads the abstract with `paper.get("abstract", sentinel)`, so an explicit
JSON `null` passes through as Python `None`, and an HTML abstract is kept
verbatim — here it differs from its tag-stripped form. -/
theorem c9_counterexample :
    (parse_semantic_response [ssNullAbstract]).map Paper.abstract = [none] ∧
    (none : Option String) ≠ some "No abstract available." ∧
    (parse_semantic_response [ssHtmlAbstract]).map Paper.abstract =
      [some "<b>Bold</b> text"] ∧
    stripTags "<b>Bold</b> text" = "Bold text" ∧
    "<b>Bold</b> text" ≠ "Bold text" := by
  refine ⟨by decide, by decide, by decide, by decide, by decide⟩

/-- C9 (amended).  Only the CrossRef adapter pipes abstracts through
`clean_abstract` — tag-stripping, entity-unescaping and falling back to
the sentinel for a missing abstract; Semantic Scholar substitutes the
sentinel only for an absent key (an explicit `null` survives as `None`
and markup is not stripped), and arXiv uses the raw trimmed summary. -/
theorem c9_abstract_handling :
    (∀ (it : CrItem) (p : Paper), crItemToPaper it = .ok p →
      p.abstract = some (clean_abstract it.abstract)) ∧
    clean_abstract none = "No abstract available." ∧
    clean_abstract (some "") = "No abstract available." ∧
    clean_abstract (some "<jats:p>Results &amp; discussion</jats:p>") =
      "Results & discussion" ∧
    ssAbstract none = some "No abstract available." := by
  refine ⟨?_, rfl, by decide, by decide, rfl⟩
  intro it p h
  simp only [crItemToPaper, Bind.bind, Except.bind] at h
  cases ht : crTitle it.title with
  | error e => rw [ht] at h; exact Except.noConfusion h
  | ok ti =>
    rw [ht] at h
    cases hy : crYear it.issued with
    | error e => rw [hy] at h; exact Except.noConfusion h
    | ok yr =>
      rw [hy] at h
      cases h
      rfl

/-- C9 (witness). -/
theorem c9_abstract_handling_witness :
    crItemToPaper crItemAbs = .ok c9Paper ∧
    c9Paper.abstract = some (clean_abstract crItemAbs.abstract) :=
  ⟨by decide, c9_abstract_handling.1 crItemAbs c9Paper (by decide)⟩

/-- C10 (confirmed).  When PubChem yields no truthy result and the Cactus
probe yields no image, `fetch_chemical_info` consults Wikidata: a
successful entity search produces a match with no CID, source
`"Wikidata"`, the entity's label as matched name (the input query when
the label key is absent), and the Wikidata entity page URL in the image
slot. -/
theorem c10_wikidata_third_source (cidResp : CidOutcome) (nameResp : NameOutcome)
    (headStatus : Option Int) (q : String) (t : ChemTuple) (e : WdEntity)
    (es : List WdEntity)
    (hp : (fetch_pubchem_image cidResp nameResp q).2 = .ok t)
    (h1 : chemHit t = false)
    (h2 : pyTruthyStr (fetch_cactus_image headStatus q).2.image_url = false) :
    fetch_chemical_info cidResp nameResp headStatus (.ok (e :: es)) q =
      .ok ⟨none, some ("https://www.wikidata.org/wiki/" ++ pyStrOfOpt e.id),
           some "Wikidata",
           match e.label with | none => some q | some v => v⟩ := by
  have himg : pyTruthyStr (fetch_wikidata (.ok (e :: es)) q).2.image_url = true := by
    simp [fetch_wikidata, pyTruthyStr, wikiUrl_ne_empty]
  simp only [fetch_chemical_info, hp, h1, h2, himg, Bool.false_eq_true, if_false,
    if_true]
  simp [fetch_wikidata]

/-- C10 (witness). -/
theorem c10_wikidata_witness :
    fetch_chemical_info (.ok []) .exn (some 500) (.ok [⟨none, some "Q2"⟩]) "glucose" =
      .ok ⟨none, some "https://www.wikidata.org/wiki/Q2", some "Wikidata",
           some "glucose"⟩ := by
  have := c10_wikidata_third_source (.ok []) .exn (some 500) "glucose" chemNone
    ⟨none, some "Q2"⟩ [] rfl (by decide) (by decide)
  simpa using this
